import Mathlib

/-
Verification of the Float Ollama WASM module (src/main.go and the variant in
src/unnamed/part_000) against its specification.

The module is a single-shot pipeline: parse the input buffer, validate it,
build the outbound Ollama API request, issue it through the host capabilities,
interpret the reply, and persist exactly one output artifact.  Host
capabilities (float_http_request, float_read_file, float_write_file) return
bare status codes; they are modelled by a HostEnv record of those statuses.
Go strings are modelled by String, with byte lengths taken via utf8ByteSize
(Go len counts UTF-8 bytes); JSON option values that the code inspects only
as float64 are modelled by Rat (every finite float64 embeds order-faithfully
into the rationals, and JSON never yields NaN or infinities).
-/

/-- Byte length of a Go string: Go len(s) counts UTF-8 bytes. -/
def goLen (s : String) : Nat := s.utf8ByteSize

/-- Model of Go strings.HasPrefix.  Go compares byte sequences; for the ASCII
patterns used by the source a byte-level match coincides with a
character-level match on valid UTF-8 strings. -/
def goStartsWith (s pat : String) : Bool := pat.data.isPrefixOf s.data

/-- Model of Go strings.Contains (substring search).  As above, for the ASCII
patterns used by the source the byte-level search coincides with the
character-level search. -/
def strContains (s pat : String) : Bool :=
  (List.range (s.data.length + 1)).any fun i => pat.data.isPrefixOf (s.data.drop i)

/-- Model of Go strings.TrimRight(s, "/"): remove every trailing slash. -/
def trimTrailingSlashes (s : String) : String :=
  String.mk ((s.data.reverse.dropWhile fun c => c == '/').reverse)

/-- A JSON value stored in the options map of the input.  The source only ever
inspects such a value through a float64 type assertion, so the model keeps
the numeric case (as a rational) and collapses every non-numeric case. -/
inductive OptVal where
  | num (q : Rat)
  | other
deriving DecidableEq, Repr

/-- Lookup in a Go map modelled as an association list (first match). -/
def optLookup (m : List (String × OptVal)) (k : String) : Option OptVal :=
  (m.find? fun p => p.1 == k).map fun p => p.2

/-- A value stored in the metadata map of an output.  The source stores
strings, integers, booleans and the optional stream flag. -/
inductive MetaVal where
  | str (s : String)
  | num (n : Int)
  | bool (b : Bool)
  | obool (o : Option Bool)
deriving DecidableEq, Repr

/-- Lookup in the metadata map (modelled as an association list). -/
def metaLookup (m : List (String × MetaVal)) (k : String) : Option MetaVal :=
  (m.find? fun p => p.1 == k).map fun p => p.2

/-- OllamaInput (src/main.go lines 25-39, src/unnamed/part_000 lines 26-40):
the value decoded from the input buffer.  Defaults are the Go zero values. -/
structure OllamaInput where
  model : String := ""
  prompt : String := ""
  suffix : String := ""
  system : String := ""
  template : String := ""
  context : List Int := []
  stream : Option Bool := none
  raw : Bool := false
  format : Option OptVal := none
  keepAlive : String := ""
  images : List String := []
  options : Option (List (String × OptVal)) := none
  ollamaURL : String := ""
deriving DecidableEq, Repr

/-- OllamaAPIRequest (src/main.go lines 61-74): the outbound request body.
It has every field of OllamaInput except ollama_url. -/
structure OllamaAPIRequest where
  model : String := ""
  prompt : String := ""
  suffix : String := ""
  system : String := ""
  template : String := ""
  context : List Int := []
  stream : Option Bool := none
  raw : Bool := false
  format : Option OptVal := none
  keepAlive : String := ""
  images : List String := []
  options : Option (List (String × OptVal)) := none
deriving DecidableEq, Repr

/-- OllamaAPIResponse (src/main.go lines 77-89): the decoded reply. -/
structure OllamaAPIResponse where
  model : String := ""
  createdAt : String := ""
  response : String := ""
  done : Bool := false
  context : List Int := []
  totalDuration : Int := 0
  loadDuration : Int := 0
  promptEvalCount : Int := 0
  promptEvalDuration : Int := 0
  evalCount : Int := 0
  evalDuration : Int := 0
deriving DecidableEq, Repr

/-- OllamaOutput (src/main.go lines 42-58): the persisted result artifact. -/
structure OllamaOutput where
  success : Bool := false
  response : String := ""
  model : String := ""
  createdAt : String := ""
  done : Bool := false
  context : List Int := []
  totalDuration : Int := 0
  loadDuration : Int := 0
  promptEvalCount : Int := 0
  promptEvalDuration : Int := 0
  evalCount : Int := 0
  evalDuration : Int := 0
  error : String := ""
  errorType : String := ""
  metadata : List (String × MetaVal) := []
deriving DecidableEq, Repr

/-- The bytes the host delivers as the HTTP reply, together with the outcome
of json.Unmarshal on them: either they decode to an OllamaAPIResponse or
they fail to decode.  The raw bytes are carried in both cases. -/
inductive ReplyBytes where
  | ok (resp : OllamaAPIResponse) (raw : String)
  | bad (raw : String)
deriving DecidableEq, Repr

/-- The raw reply bytes. -/
def ReplyBytes.raw : ReplyBytes → String
  | .ok _ r => r
  | .bad r => r

/-- The json.Unmarshal outcome on the reply bytes. -/
def ReplyBytes.decode : ReplyBytes → Option OllamaAPIResponse
  | .ok resp _ => some resp
  | .bad _ => none

/-- The status codes the four host capabilities return during one invocation,
plus the reply content the host makes available, plus the outcome of
json.Marshal on the outbound request.  (Marshal of the request cannot in fact
fail for a JSON-decoded input, but the branch exists in the source and is
modelled so every path is covered.) -/
structure HostEnv where
  httpStatus : Nat
  readStatus : Nat
  reply : ReplyBytes
  marshalOk : Bool
  writeStatus : Nat
deriving DecidableEq, Repr

/-- The observable outcome of one generate_ollama invocation: the returned
process-level status, the list of outputs passed to write_resource (in order),
the request body handed to issue_request (if the pipeline got that far) and
the URL it was sent to. -/
structure GenResult where
  status : Nat
  writes : List OllamaOutput
  sent : Option OllamaAPIRequest := none
  requestedURL : Option String := none
deriving DecidableEq, Repr

/-- BUILD step (src/main.go lines 280-293): project the input onto the
outbound request; the ollama_url field is not copied. -/
def buildAPIRequest (input : OllamaInput) : OllamaAPIRequest :=
  { model := input.model
    prompt := input.prompt
    suffix := input.suffix
    system := input.system
    template := input.template
    context := input.context
    stream := input.stream
    raw := input.raw
    format := input.format
    keepAlive := input.keepAlive
    images := input.images
    options := input.options }

/-- The URL generate_ollama sends the request to (src/main.go lines 274 and
312): the endpoint with trailing slashes removed, then "/api/generate". -/
def requestURL (i : OllamaInput) : String :=
  trimTrailingSlashes i.ollamaURL ++ "/api/generate"

/-- readActualOllamaResponse (src/main.go lines 193-202): the reply-content
hook is a stub that unconditionally returns an error. -/
def readActualOllamaResponse : Except String ReplyBytes :=
  .error "real Ollama API integration requires Float runtime HTTP response mechanism"

/-- readHttpResponseFromFloat (src/main.go lines 167-191): read_resource on
the temporary reply path, then the (stubbed) content read. -/
def readHttpResponseFromFloat (host : HostEnv) : Except String ReplyBytes :=
  if host.readStatus ≠ 0 then
    .error ("failed to read HTTP response file: error code " ++ toString host.readStatus)
  else readActualOllamaResponse

/-- makeHttpRequest (src/main.go lines 123-164): issue_request, then the
follow-up reply read; a nonzero issue_request status aborts first. -/
def makeHttpRequest (host : HostEnv) : Except String ReplyBytes :=
  if host.httpStatus ≠ 0 then
    .error ("HTTP request failed with status code: " ++ toString host.httpStatus)
  else
    match readHttpResponseFromFloat host with
    | .error e => .error ("failed to read response: " ++ e)
    | .ok r => .ok r

/-- Modelled from the spec: the host half of reply delivery is missing from
src (readActualOllamaResponse in src/main.go is an unconditional-error stub
whose comments defer to the host runtime).  Following section 9 of the spec,
after a successful issue_request the host writes the reply bytes to one
agreed path and the module obtains them via read_resource: status checks as
in src/main.go makeHttpRequest, content from the host environment. -/
def makeHttpRequestCanon (host : HostEnv) : Except String ReplyBytes :=
  if host.httpStatus ≠ 0 then
    .error ("HTTP request failed with status code: " ++ toString host.httpStatus)
  else if host.readStatus ≠ 0 then
    .error ("failed to read response: failed to read HTTP response file: error code "
      ++ toString host.readStatus)
  else .ok host.reply

/-- The success-path output (src/main.go lines 349-372); input here is the
pipeline input after its endpoint was trimmed. -/
def successOutput (input : OllamaInput) (resp : OllamaAPIResponse) : OllamaOutput :=
  { success := true
    response := resp.response
    model := resp.model
    createdAt := resp.createdAt
    done := resp.done
    context := resp.context
    totalDuration := resp.totalDuration
    loadDuration := resp.loadDuration
    promptEvalCount := resp.promptEvalCount
    promptEvalDuration := resp.promptEvalDuration
    evalCount := resp.evalCount
    evalDuration := resp.evalDuration
    metadata :=
      [("input_prompt_length", MetaVal.num (Int.ofNat (goLen input.prompt))),
       ("response_length", MetaVal.num (Int.ofNat (goLen resp.response))),
       ("ollama_url", MetaVal.str input.ollamaURL),
       ("stream_mode", MetaVal.obool input.stream),
       ("has_suffix", MetaVal.bool (input.suffix != "")),
       ("has_system", MetaVal.bool (input.system != "")),
       ("has_images", MetaVal.bool (decide (0 < input.images.length))),
       ("processing_complete", MetaVal.bool true)] }

/-- INVOKE through EMIT (src/main.go lines 315-383), shared by the faithful
and the canonical pipeline: branch on the fetch outcome, then on the reply
decode, then persist; the success branch checks the write status. -/
def finishRequest (input : OllamaInput) (url : String) (host : HostEnv)
    (fetched : Except String ReplyBytes) : GenResult :=
  match fetched with
  | .error e =>
    { status := 1
      writes := [{ success := false
                   error := "Failed to connect to Ollama: " ++ e
                   errorType := "HTTP_REQUEST_ERROR"
                   metadata := [("error_stage", MetaVal.str "http_request"),
                                ("ollama_url", MetaVal.str url)] }] }
  | .ok reply =>
    match reply.decode with
    | none =>
      { status := 1
        writes := [{ success := false
                     error := "Invalid response from Ollama"
                     errorType := "RESPONSE_PARSE_ERROR"
                     metadata := [("error_stage", MetaVal.str "response_parsing"),
                                  ("raw_response", MetaVal.str reply.raw)] }] }
    | some resp =>
      { status := if host.writeStatus = 0 then 0 else 1
        writes := [successOutput input resp] }

/-- generate_ollama (src/main.go lines 205-384).  The json.Unmarshal outcome
on the input buffer is the parsed argument (none = parse failure); every
output literal below mirrors the corresponding source literal, except that
error strings that embed a formatted sub-error keep the modelled sub-error
where one exists and drop the free-text tail otherwise (no claim concerns
those message tails).  Each element
of writes is one ModuleOutput handed to write_resource (json.MarshalIndent of
an OllamaOutput cannot fail, so writeOutputFile always reaches the
write_resource call); on the error paths the source discards the write
status, on the success path a failed write turns the status nonzero. -/
def generate_ollama (parsed : Option OllamaInput) (host : HostEnv) : GenResult :=
  match parsed with
  | none =>
    { status := 1
      writes := [{ success := false
                   error := "Invalid input JSON"
                   errorType := "INPUT_PARSE_ERROR"
                   metadata := [("error_stage", MetaVal.str "input_parsing")] }] }
  | some input0 =>
    if input0.model = "" then
      { status := 1
        writes := [{ success := false
                     error := "Model field is required"
                     errorType := "VALIDATION_ERROR"
                     metadata := [("error_stage", MetaVal.str "validation"),
                                  ("missing_field", MetaVal.str "model")] }] }
    else if input0.prompt = "" then
      { status := 1
        writes := [{ success := false
                     error := "Prompt field is required"
                     errorType := "VALIDATION_ERROR"
                     metadata := [("error_stage", MetaVal.str "validation"),
                                  ("missing_field", MetaVal.str "prompt")] }] }
    else if input0.ollamaURL = "" then
      { status := 1
        writes := [{ success := false
                     error := "ollama_url field is required - please specify the Ollama server URL"
                     errorType := "VALIDATION_ERROR"
                     metadata := [("error_stage", MetaVal.str "validation"),
                                  ("missing_field", MetaVal.str "ollama_url")] }] }
    else
      let input := { input0 with ollamaURL := trimTrailingSlashes input0.ollamaURL }
      let apiRequest := buildAPIRequest input
      if host.marshalOk then
        let url := input.ollamaURL ++ "/api/generate"
        { finishRequest input url host (makeHttpRequest host) with
          sent := some apiRequest, requestedURL := some url }
      else
        { status := 1
          writes := [{ success := false
                       error := "Failed to prepare request"
                       errorType := "REQUEST_MARSHAL_ERROR"
                       metadata := [("error_stage", MetaVal.str "request_preparation")] }] }

/-- The canonical pipeline: identical to generate_ollama except that the
reply fetch follows the canonical retrieval design of the spec
(makeHttpRequestCanon) instead of the stubbed one. -/
def generate_ollama_canon (parsed : Option OllamaInput) (host : HostEnv) : GenResult :=
  match parsed with
  | none => generate_ollama none host
  | some input0 =>
    if input0.model = "" ∨ input0.prompt = "" ∨ input0.ollamaURL = "" then
      generate_ollama (some input0) host
    else
      let input := { input0 with ollamaURL := trimTrailingSlashes input0.ollamaURL }
      let apiRequest := buildAPIRequest input
      if host.marshalOk then
        let url := input.ollamaURL ++ "/api/generate"
        { finishRequest input url host (makeHttpRequestCanon host) with
          sent := some apiRequest, requestedURL := some url }
      else
        generate_ollama (some input0) host

/-- The top_p range check inside validateInput (src/unnamed/part_000 lines
218-222): only a numeric value out of the closed interval from 0 to 1 fails. -/
def topPViolation (m : List (String × OptVal)) : Option String :=
  match optLookup m "top_p" with
  | some (OptVal.num q) =>
    if q < 0 ∨ 1 < q then some "top_p must be between 0 and 1" else none
  | _ => none

/-- The options block of validateInput (src/unnamed/part_000 lines 212-223):
skipped for a nil map; temperature is checked before top_p and returns
immediately on violation. -/
def optionsViolation : Option (List (String × OptVal)) → Option String
  | none => none
  | some m =>
    match optLookup m "temperature" with
    | some (OptVal.num q) =>
      if q < 0 ∨ 2 < q then some "temperature must be between 0 and 2"
      else topPViolation m
    | _ => topPViolation m

/-- validateInput (src/unnamed/part_000 lines 183-226): the first failing
check, in source order, or none. -/
def validateInput (input : OllamaInput) : Option String :=
  if input.model = "" then some "model field is required"
  else if input.prompt = "" then some "prompt field is required"
  else if input.ollamaURL = "" then some "ollama_url field is required"
  else if !(goStartsWith input.ollamaURL "http://" || goStartsWith input.ollamaURL "https://") then
    some "ollama_url must be a valid HTTP/HTTPS URL"
  else if 32768 < goLen input.prompt then
    some "prompt exceeds maximum length of 32768 characters"
  else if input.system != "" && decide (8192 < goLen input.system) then
    some "system message exceeds maximum length of 8192 characters"
  else optionsViolation input.options

/-- The metadata the part_000 variant attaches to a validation failure
(src/unnamed/part_000 lines 295-303): error_stage plus a missing_field tag
obtained by substring-matching the field names against the error message. -/
def taggedValidationMetadata (msg : String) : List (String × MetaVal) :=
  let base := [("error_stage", MetaVal.str "validation")]
  if strContains msg "model" then base ++ [("missing_field", MetaVal.str "model")]
  else if strContains msg "prompt" then base ++ [("missing_field", MetaVal.str "prompt")]
  else if strContains msg "ollama_url" then base ++ [("missing_field", MetaVal.str "ollama_url")]
  else base

/-- createErrorOutput (src/unnamed/part_000 lines 253-266): error payload with
done set to true and processing_complete forced to false. -/
def createErrorOutput (errorMsg errorType : String)
    (metadata : List (String × MetaVal)) : OllamaOutput :=
  { success := false
    error := errorMsg
    errorType := errorType
    done := true
    metadata := metadata ++ [("processing_complete", MetaVal.bool false)] }

/-- The parse and validate stages of the part_000 variant of generate_ollama
(src/unnamed/part_000 lines 269-310): the result the entry point terminates
with when parsing or validation fails, none when validation passes and the
pipeline continues past line 310.  (The continuation of that variant builds an
inline-simulated reply, which the spec marks as a non-canonical artifact; no
claim depends on it.) -/
def generate_ollama_v1_early (parsed : Option OllamaInput) : Option GenResult :=
  match parsed with
  | none =>
    some { status := 1
           writes := [createErrorOutput "Invalid input JSON" "INPUT_PARSE_ERROR"
                        [("error_stage", MetaVal.str "input_parsing")]] }
  | some input =>
    match validateInput input with
    | some msg =>
      some { status := 1
             writes := [createErrorOutput msg "VALIDATION_ERROR"
                          (taggedValidationMetadata msg)] }
    | none => none

/-- Refinement spec for the amended claim C5: the validation checks of
src/unnamed/part_000 as an ordered list of (violation predicate, message)
pairs, in the order the source applies them: target id empty, payload empty,
endpoint empty, endpoint scheme, payload length bound, system-text length
bound, temperature range, top_p range. -/
def orderedChecks : List ((OllamaInput → Bool) × String) :=
  [(fun i => i.model == "", "model field is required"),
   (fun i => i.prompt == "", "prompt field is required"),
   (fun i => i.ollamaURL == "", "ollama_url field is required"),
   (fun i => !(goStartsWith i.ollamaURL "http://" || goStartsWith i.ollamaURL "https://"),
    "ollama_url must be a valid HTTP/HTTPS URL"),
   (fun i => decide (32768 < goLen i.prompt),
    "prompt exceeds maximum length of 32768 characters"),
   (fun i => i.system != "" && decide (8192 < goLen i.system),
    "system message exceeds maximum length of 8192 characters"),
   (fun i =>
      match i.options with
      | none => false
      | some m =>
        match optLookup m "temperature" with
        | some (OptVal.num q) => decide (q < 0 ∨ 2 < q)
        | _ => false,
    "temperature must be between 0 and 2"),
   (fun i =>
      match i.options with
      | none => false
      | some m =>
        match optLookup m "top_p" with
        | some (OptVal.num q) => decide (q < 0 ∨ 1 < q)
        | _ => false,
    "top_p must be between 0 and 1")]

/-- First-violation semantics over an ordered check list. -/
def firstViolation (i : OllamaInput) : Option String :=
  (orderedChecks.find? fun c => c.1 i).map fun c => c.2

/-! Helper lemmas. -/

lemma head_dropWhile_not (p : Char → Bool) (l : List Char) (c : Char)
    (h : (l.dropWhile p).head? = some c) : p c = false := by
  have h2 : l.find? (fun x => !(p x)) = some c := by
    rw [List.find?_not_eq_head?_dropWhile]; exact h
  have := List.find?_some h2
  simpa using this

lemma trimTrailingSlashes_data (s : String) :
    (trimTrailingSlashes s).data = (s.data.reverse.dropWhile fun c => c == '/').reverse := rfl

/-- The trimmed endpoint extends to the original by trailing slashes only. -/
lemma trim_append_slashes (s : String) :
    ∃ k, s.data = (trimTrailingSlashes s).data ++ List.replicate k '/' := by
  refine ⟨(s.data.reverse.takeWhile fun c => c == '/').length, ?_⟩
  rw [trimTrailingSlashes_data]
  conv_lhs => rw [← List.reverse_reverse s.data,
    ← List.takeWhile_append_dropWhile (fun c => c == '/') s.data.reverse]
  rw [List.reverse_append]
  congr 1
  rw [List.eq_replicate_iff]
  constructor
  · simp
  · intro b hb
    rw [List.mem_reverse] at hb
    have := List.mem_takeWhile_imp hb
    simpa using this

/-- The trimmed endpoint does not end in a path separator. -/
lemma trim_no_trailing_slash (s : String) (c : Char)
    (h : (trimTrailingSlashes s).data.getLast? = some c) : c ≠ '/' := by
  rw [trimTrailingSlashes_data, List.getLast?_reverse] at h
  have := head_dropWhile_not _ _ _ h
  simpa using this

lemma goLen_mk_cons (c : Char) (l : List Char) :
    goLen (String.mk (c :: l)) = goLen (String.mk l) + c.utf8Size := rfl

/-- An all-ASCII string of n letters, used for length-boundary inputs. -/
def bigA (n : Nat) : String := String.mk (List.replicate n 'a')

lemma goLen_bigA (n : Nat) : goLen (bigA n) = n := by
  induction n with
  | zero => rfl
  | succ k ih =>
    unfold bigA at ih ⊢
    rw [List.replicate_succ, goLen_mk_cons, ih]
    rfl

lemma bigA_ne_empty (n : Nat) (h : n ≠ 0) : bigA n ≠ "" := by
  intro he
  apply h
  have := congrArg goLen he
  rw [goLen_bigA] at this
  simpa using this

lemma finishRequest_writes_length (input : OllamaInput) (url : String) (host : HostEnv)
    (fetched : Except String ReplyBytes) :
    (finishRequest input url host fetched).writes.length = 1 := by
  unfold finishRequest
  cases fetched with
  | error e => rfl
  | ok r => cases r <;> rfl

/-! The claims. -/

/-- Claim C1: for every input buffer (every parse outcome) and every
combination of capability status codes, generate_ollama hands exactly one
ModuleOutput to write_resource before returning: each terminating path of
src/main.go performs exactly one write, and no path terminates without
producing output. -/
theorem c1_exactly_one_write (parsed : Option OllamaInput) (host : HostEnv) :
    (generate_ollama parsed host).writes.length = 1 := by
  unfold generate_ollama
  cases parsed with
  | none => rfl
  | some input =>
    dsimp only
    split
    · rfl
    split
    · rfl
    split
    · rfl
    split
    · exact finishRequest_writes_length _ _ _ _
    · rfl

/-- A validation-failure outcome of the entry point: nonzero status and a
single persisted error output of type VALIDATION_ERROR whose metadata tags
the given field name as missing_field. -/
def validationFailureResult (r : GenResult) (field : String) : Prop :=
  r.status = 1 ∧ ∃ out, r.writes = [out] ∧ out.success = false ∧
    out.errorType = "VALIDATION_ERROR" ∧
    metaLookup out.metadata "missing_field" = some (MetaVal.str field)

/-- Claim C4: for every input whose first missing required field is the
model, the prompt, or the ollama_url, both generate_ollama (src/main.go) and
the part_000 variant emit a single output with success false, error_type
VALIDATION_ERROR and metadata missing_field naming exactly that field, and
return a nonzero status. -/
theorem c4_missing_required_field (i : OllamaInput) (host : HostEnv) :
    (i.model = "" →
      validationFailureResult (generate_ollama (some i) host) "model" ∧
      ∃ r, generate_ollama_v1_early (some i) = some r ∧ validationFailureResult r "model") ∧
    (i.model ≠ "" → i.prompt = "" →
      validationFailureResult (generate_ollama (some i) host) "prompt" ∧
      ∃ r, generate_ollama_v1_early (some i) = some r ∧ validationFailureResult r "prompt") ∧
    (i.model ≠ "" → i.prompt ≠ "" → i.ollamaURL = "" →
      validationFailureResult (generate_ollama (some i) host) "ollama_url" ∧
      ∃ r, generate_ollama_v1_early (some i) = some r ∧ validationFailureResult r "ollama_url") := by
  refine ⟨fun h1 => ⟨?_, ?_⟩, fun h1 h2 => ⟨?_, ?_⟩, fun h1 h2 h3 => ⟨?_, ?_⟩⟩
  · have e : generate_ollama (some i) host =
        { status := 1
          writes := [{ success := false
                       error := "Model field is required"
                       errorType := "VALIDATION_ERROR"
                       metadata := [("error_stage", MetaVal.str "validation"),
                                    ("missing_field", MetaVal.str "model")] }] } := by
      simp only [generate_ollama, if_pos h1]
    rw [e]
    exact ⟨rfl, _, rfl, rfl, rfl, rfl⟩
  · have hv : validateInput i = some "model field is required" := by
      unfold validateInput
      rw [if_pos h1]
    have e2 : generate_ollama_v1_early (some i) =
        some { status := 1
               writes := [createErrorOutput "model field is required" "VALIDATION_ERROR"
                            (taggedValidationMetadata "model field is required")] } := by
      simp only [generate_ollama_v1_early, hv]
    exact ⟨_, e2, rfl, _, rfl, rfl, rfl, rfl⟩
  · have e : generate_ollama (some i) host =
        { status := 1
          writes := [{ success := false
                       error := "Prompt field is required"
                       errorType := "VALIDATION_ERROR"
                       metadata := [("error_stage", MetaVal.str "validation"),
                                    ("missing_field", MetaVal.str "prompt")] }] } := by
      simp only [generate_ollama, if_neg h1, if_pos h2]
    rw [e]
    exact ⟨rfl, _, rfl, rfl, rfl, rfl⟩
  · have hv : validateInput i = some "prompt field is required" := by
      unfold validateInput
      rw [if_neg h1, if_pos h2]
    have e2 : generate_ollama_v1_early (some i) =
        some { status := 1
               writes := [createErrorOutput "prompt field is required" "VALIDATION_ERROR"
                            (taggedValidationMetadata "prompt field is required")] } := by
      simp only [generate_ollama_v1_early, hv]
    exact ⟨_, e2, rfl, _, rfl, rfl, rfl, rfl⟩
  · have e : generate_ollama (some i) host =
        { status := 1
          writes := [{ success := false
                       error := "ollama_url field is required - please specify the Ollama server URL"
                       errorType := "VALIDATION_ERROR"
                       metadata := [("error_stage", MetaVal.str "validation"),
                                    ("missing_field", MetaVal.str "ollama_url")] }] } := by
      simp only [generate_ollama, if_neg h1, if_neg h2, if_pos h3]
    rw [e]
    exact ⟨rfl, _, rfl, rfl, rfl, rfl⟩
  · have hv : validateInput i = some "ollama_url field is required" := by
      unfold validateInput
      rw [if_neg h1, if_neg h2, if_pos h3]
    have e2 : generate_ollama_v1_early (some i) =
        some { status := 1
               writes := [createErrorOutput "ollama_url field is required" "VALIDATION_ERROR"
                            (taggedValidationMetadata "ollama_url field is required")] } := by
      simp only [generate_ollama_v1_early, hv]
    exact ⟨_, e2, rfl, _, rfl, rfl, rfl, rfl⟩

/-- Claim C4, witness: the all-empty input is tagged with missing_field
model by both pipelines. -/
theorem c4_missing_required_field_witness :
    validationFailureResult
      (generate_ollama (some {})
        { httpStatus := 0, readStatus := 0, reply := .bad "", marshalOk := true,
          writeStatus := 0 }) "model" ∧
    ∃ r, generate_ollama_v1_early (some {}) = some r ∧ validationFailureResult r "model" :=
  (c4_missing_required_field {}
    { httpStatus := 0, readStatus := 0, reply := .bad "", marshalOk := true,
      writeStatus := 0 }).1 rfl

/-- Claim C10: for every input whose required fields are present but whose
endpoint lacks an http or https scheme, validateInput fails with the URL
format message and the part_000 variant emits VALIDATION_ERROR with
metadata missing_field set to ollama_url although the field is present (the
tag comes from substring-matching the field name against the message). -/
theorem c10_url_format_missing_field_tag (i : OllamaInput)
    (hm : i.model ≠ "") (hp : i.prompt ≠ "") (hu : i.ollamaURL ≠ "")
    (hfmt : (goStartsWith i.ollamaURL "http://" || goStartsWith i.ollamaURL "https://") = false) :
    validateInput i = some "ollama_url must be a valid HTTP/HTTPS URL" ∧
    ∃ r, generate_ollama_v1_early (some i) = some r ∧
      validationFailureResult r "ollama_url" := by
  have hv : validateInput i = some "ollama_url must be a valid HTTP/HTTPS URL" := by
    unfold validateInput
    rw [if_neg hm, if_neg hp, if_neg hu,
      if_pos (show (!(goStartsWith i.ollamaURL "http://" || goStartsWith i.ollamaURL "https://"))
        = true by rw [hfmt]; rfl)]
  have e2 : generate_ollama_v1_early (some i) =
      some { status := 1
             writes := [createErrorOutput "ollama_url must be a valid HTTP/HTTPS URL"
                          "VALIDATION_ERROR"
                          (taggedValidationMetadata "ollama_url must be a valid HTTP/HTTPS URL")] } := by
    simp only [generate_ollama_v1_early, hv]
  exact ⟨hv, _, e2, rfl, _, rfl, rfl, rfl, rfl⟩

/-- Claim C10, witness: a present non-HTTP endpoint is tagged missing. -/
theorem c10_url_format_missing_field_tag_witness :
    validateInput { model := "m", prompt := "p", ollamaURL := "ftp://h" } =
      some "ollama_url must be a valid HTTP/HTTPS URL" ∧
    ∃ r, generate_ollama_v1_early
        (some { model := "m", prompt := "p", ollamaURL := "ftp://h" }) = some r ∧
      validationFailureResult r "ollama_url" :=
  c10_url_format_missing_field_tag { model := "m", prompt := "p", ollamaURL := "ftp://h" }
    (by decide) (by decide) (by decide) (by decide)

/-- Claim C6: on an otherwise valid input, a prompt of exactly 32768 bytes
passes validateInput, while one of 32769 bytes fails with the prompt length
message and the part_000 variant attributes the VALIDATION_ERROR to the
prompt field. -/
theorem c6_prompt_length_boundary (i : OllamaInput)
    (hm : i.model ≠ "") (hp : i.prompt ≠ "")
    (hu : (goStartsWith i.ollamaURL "http://" || goStartsWith i.ollamaURL "https://") = true)
    (hs : (i.system != "" && decide (8192 < goLen i.system)) = false)
    (ho : optionsViolation i.options = none) :
    (goLen i.prompt = 32768 → validateInput i = none) ∧
    (goLen i.prompt = 32768 + 1 →
      validateInput i = some "prompt exceeds maximum length of 32768 characters" ∧
      ∃ r, generate_ollama_v1_early (some i) = some r ∧
        validationFailureResult r "prompt") := by
  have hu' : i.ollamaURL ≠ "" := by
    intro he
    rw [he] at hu
    exact absurd hu (by decide)
  have h4 : ¬((!(goStartsWith i.ollamaURL "http://" || goStartsWith i.ollamaURL "https://"))
      = true) := by
    rw [hu]
    decide
  have h6 : ¬((i.system != "" && decide (8192 < goLen i.system)) = true) := by
    rw [hs]
    decide
  constructor
  · intro hlen
    unfold validateInput
    rw [if_neg hm, if_neg hp, if_neg hu', if_neg h4,
      if_neg (show ¬(32768 < goLen i.prompt) by rw [hlen]; decide), if_neg h6]
    exact ho
  · intro hlen
    have hv : validateInput i = some "prompt exceeds maximum length of 32768 characters" := by
      unfold validateInput
      rw [if_neg hm, if_neg hp, if_neg hu', if_neg h4,
        if_pos (show 32768 < goLen i.prompt by rw [hlen]; decide)]
    have e2 : generate_ollama_v1_early (some i) =
        some { status := 1
               writes := [createErrorOutput "prompt exceeds maximum length of 32768 characters"
                            "VALIDATION_ERROR"
                            (taggedValidationMetadata
                              "prompt exceeds maximum length of 32768 characters")] } := by
      simp only [generate_ollama_v1_early, hv]
    exact ⟨hv, _, e2, rfl, _, rfl, rfl, rfl, rfl⟩

/-- Claim C6, witness: concrete 32768-byte and 32769-byte prompts. -/
theorem c6_prompt_length_boundary_witness :
    validateInput { model := "m", prompt := bigA 32768, ollamaURL := "http://h" } = none ∧
    (validateInput { model := "m", prompt := bigA (32768 + 1), ollamaURL := "http://h" } =
       some "prompt exceeds maximum length of 32768 characters" ∧
     ∃ r, generate_ollama_v1_early
         (some { model := "m", prompt := bigA (32768 + 1), ollamaURL := "http://h" }) = some r ∧
       validationFailureResult r "prompt") :=
  ⟨(c6_prompt_length_boundary { model := "m", prompt := bigA 32768, ollamaURL := "http://h" }
      (by decide) (bigA_ne_empty 32768 (by decide)) (by decide) (by decide) rfl).1
    (goLen_bigA 32768),
   (c6_prompt_length_boundary
      { model := "m", prompt := bigA (32768 + 1), ollamaURL := "http://h" }
      (by decide) (bigA_ne_empty (32768 + 1) (by decide)) (by decide) (by decide) rfl).2
    (goLen_bigA (32768 + 1))⟩

/-- The input refuting the field-check order stated in claim C5: its payload
violates the length bound and its endpoint violates the scheme format. -/
def c5Input : OllamaInput := { model := "m", prompt := bigA 32769, ollamaURL := "ftp://h" }

/-- Claim C5, counterexample: on an input violating both the payload length
bound and the endpoint scheme format, validateInput of src/unnamed/part_000
reports the endpoint violation, not the payload one, refuting the claimed
field-check order target id, then payload, then endpoint: the payload length
check actually runs after both endpoint checks. -/
theorem c5_order_counterexample :
    32768 < goLen c5Input.prompt ∧
    validateInput c5Input = some "ollama_url must be a valid HTTP/HTTPS URL" := by
  constructor
  · show 32768 < goLen (bigA 32769)
    rw [goLen_bigA]
    decide
  · unfold validateInput
    rw [if_neg (show ¬(c5Input.model = "") by decide),
      if_neg (show ¬(c5Input.prompt = "") from bigA_ne_empty 32769 (by decide)),
      if_neg (show ¬(c5Input.ollamaURL = "") by decide),
      if_pos (show (!(goStartsWith c5Input.ollamaURL "http://"
        || goStartsWith c5Input.ollamaURL "https://")) = true by decide)]

/-- Claim C5, amended: validateInput is a pure total function that classifies
each input either as passing or as exactly one first-violation failure, never
aggregating an error list; the fixed check order is the source order of
orderedChecks: target id empty, payload empty, endpoint empty, endpoint
scheme format, payload length bound, system text length bound, temperature
range, top_p range.  For an input violating several constraints the reported
failure is the earliest in that order. -/
theorem c5_first_violation_order (i : OllamaInput) :
    validateInput i = firstViolation i := by
  unfold validateInput firstViolation orderedChecks
  by_cases h1 : i.model = ""
  · rw [if_pos h1, List.find?_cons_of_pos _ (by simp [h1])]
    rfl
  · rw [if_neg h1, List.find?_cons_of_neg _ (by simp [h1])]
    by_cases h2 : i.prompt = ""
    · rw [if_pos h2, List.find?_cons_of_pos _ (by simp [h2])]
      rfl
    · rw [if_neg h2, List.find?_cons_of_neg _ (by simp [h2])]
      by_cases h3 : i.ollamaURL = ""
      · rw [if_pos h3, List.find?_cons_of_pos _ (by simp [h3])]
        rfl
      · rw [if_neg h3, List.find?_cons_of_neg _ (by simp [h3])]
        by_cases h4 : (!(goStartsWith i.ollamaURL "http://"
            || goStartsWith i.ollamaURL "https://")) = true
        · rw [if_pos h4, List.find?_cons_of_pos _ (by simp [h4])]
          rfl
        · rw [if_neg h4, List.find?_cons_of_neg _ (by simpa using h4)]
          by_cases h5 : 32768 < goLen i.prompt
          · rw [if_pos h5, List.find?_cons_of_pos _ (by simp [h5])]
            rfl
          · rw [if_neg h5, List.find?_cons_of_neg _ (by simp [h5])]
            by_cases h6 : (i.system != "" && decide (8192 < goLen i.system)) = true
            · rw [if_pos h6, List.find?_cons_of_pos _ (by simp [h6])]
              rfl
            · rw [if_neg h6, List.find?_cons_of_neg _ (by simpa using h6)]
              cases hop : i.options with
              | none => simp [optionsViolation, List.find?, hop]
              | some m =>
                cases elt : optLookup m "temperature" with
                | none =>
                  rw [List.find?_cons_of_neg _ (by simp [hop, elt])]
                  cases elp : optLookup m "top_p" with
                  | none => simp [optionsViolation, topPViolation, elt, elp, List.find?, hop]
                  | some v =>
                    cases v with
                    | num q =>
                      by_cases hq : q < 0 ∨ 1 < q
                      · simp [optionsViolation, topPViolation, elt, elp, hq, List.find?, hop]
                      · simp [optionsViolation, topPViolation, elt, elp, hq, List.find?, hop]
                    | other => simp [optionsViolation, topPViolation, elt, elp, List.find?, hop]
                | some v =>
                  cases v with
                  | num q =>
                    by_cases hq : q < 0 ∨ 2 < q
                    · rw [List.find?_cons_of_pos _ (by simp [hop, elt, hq])]
                      simp [optionsViolation, elt, hq]
                    · rw [List.find?_cons_of_neg _ (by simp [hop, elt, hq])]
                      cases elp : optLookup m "top_p" with
                      | none => simp [optionsViolation, topPViolation, elt, elp, hq, List.find?, hop]
                      | some v2 =>
                        cases v2 with
                        | num p =>
                          by_cases hp2 : p < 0 ∨ 1 < p
                          · simp [optionsViolation, topPViolation, elt, elp, hq, hp2, List.find?, hop]
                          · simp [optionsViolation, topPViolation, elt, elp, hq, hp2, List.find?, hop]
                        | other => simp [optionsViolation, topPViolation, elt, elp, hq, List.find?, hop]
                  | other =>
                    rw [List.find?_cons_of_neg _ (by simp [hop, elt])]
                    cases elp : optLookup m "top_p" with
                    | none => simp [optionsViolation, topPViolation, elt, elp, List.find?, hop]
                    | some v2 =>
                      cases v2 with
                      | num p =>
                        by_cases hp2 : p < 0 ∨ 1 < p
                        · simp [optionsViolation, topPViolation, elt, elp, hp2, List.find?, hop]
                        · simp [optionsViolation, topPViolation, elt, elp, hp2, List.find?, hop]
                      | other => simp [optionsViolation, topPViolation, elt, elp, List.find?, hop]

/-- On an input passing the required-field checks and with the request
marshal succeeding, generate_ollama runs the INVOKE stage on the trimmed
input and records the outbound request and URL. -/
lemma generate_ollama_valid (i : OllamaInput) (host : HostEnv)
    (hm : i.model ≠ "") (hp : i.prompt ≠ "") (hu : i.ollamaURL ≠ "")
    (hmar : host.marshalOk = true) :
    generate_ollama (some i) host =
      { finishRequest { i with ollamaURL := trimTrailingSlashes i.ollamaURL }
          (requestURL i) host (makeHttpRequest host) with
        sent := some (buildAPIRequest i)
        requestedURL := some (requestURL i) } := by
  unfold generate_ollama
  dsimp only
  rw [if_neg hm, if_neg hp, if_neg hu, if_pos hmar]
  rfl

/-- The same reduction for the canonical pipeline. -/
lemma generate_ollama_canon_valid (i : OllamaInput) (host : HostEnv)
    (hm : i.model ≠ "") (hp : i.prompt ≠ "") (hu : i.ollamaURL ≠ "")
    (hmar : host.marshalOk = true) :
    generate_ollama_canon (some i) host =
      { finishRequest { i with ollamaURL := trimTrailingSlashes i.ollamaURL }
          (requestURL i) host (makeHttpRequestCanon host) with
        sent := some (buildAPIRequest i)
        requestedURL := some (requestURL i) } := by
  unfold generate_ollama_canon
  dsimp only
  rw [if_neg (show ¬(i.model = "" ∨ i.prompt = "" ∨ i.ollamaURL = "") by
    push_neg
    exact ⟨hm, hp, hu⟩), if_pos hmar]
  rfl

/-- Claim C2: if the pipeline reaches the success case (input valid, request
built and sent, reply retrieved and decoded) but write_resource returns a
nonzero status when persisting the success output, the entry point still
returns a nonzero process-level status. -/
theorem c2_unobservable_result_is_failure (i : OllamaInput) (host : HostEnv)
    (resp : OllamaAPIResponse) (raw : String)
    (hm : i.model ≠ "") (hp : i.prompt ≠ "") (hu : i.ollamaURL ≠ "")
    (hmar : host.marshalOk = true) (hh : host.httpStatus = 0) (hr : host.readStatus = 0)
    (hrep : host.reply = ReplyBytes.ok resp raw) (hw : host.writeStatus ≠ 0) :
    (generate_ollama_canon (some i) host).status = 1 ∧
    ∃ out, (generate_ollama_canon (some i) host).writes = [out] ∧ out.success = true := by
  rw [generate_ollama_canon_valid i host hm hp hu hmar]
  have e : makeHttpRequestCanon host = .ok (ReplyBytes.ok resp raw) := by
    unfold makeHttpRequestCanon
    rw [if_neg (by simp [hh]), if_neg (by simp [hr]), hrep]
  rw [e]
  refine ⟨?_, _, rfl, rfl⟩
  show (if host.writeStatus = 0 then 0 else 1) = 1
  rw [if_neg hw]

/-- Claim C2, witness: a concrete successful run whose final write fails. -/
theorem c2_unobservable_result_is_failure_witness :
    (generate_ollama_canon (some { model := "m", prompt := "p", ollamaURL := "http://h" })
      { httpStatus := 0, readStatus := 0, reply := ReplyBytes.ok { response := "r" } "raw",
        marshalOk := true, writeStatus := 5 }).status = 1 ∧
    ∃ out,
      (generate_ollama_canon (some { model := "m", prompt := "p", ollamaURL := "http://h" })
        { httpStatus := 0, readStatus := 0, reply := ReplyBytes.ok { response := "r" } "raw",
          marshalOk := true, writeStatus := 5 }).writes = [out] ∧ out.success = true :=
  c2_unobservable_result_is_failure { model := "m", prompt := "p", ollamaURL := "http://h" }
    { httpStatus := 0, readStatus := 0, reply := ReplyBytes.ok { response := "r" } "raw",
      marshalOk := true, writeStatus := 5 }
    { response := "r" } "raw"
    (by decide) (by decide) (by decide) rfl rfl rfl rfl (by decide)

/-- Claim C3: for every input passing validation, the outbound request keeps
the model and prompt unchanged, is independent of the endpoint field (which
the request type does not even contain), and the pipeline sends exactly
buildAPIRequest of the input to the endpoint with all trailing slashes
stripped followed by the fixed suffix "/api/generate"; the stripped endpoint
is characterized as the prefix of the original whose removed tail is all
slashes and which does not itself end in a slash. -/
theorem c3_outbound_request_shape (i : OllamaInput) (u2 : String) (host : HostEnv)
    (hm : i.model ≠ "") (hp : i.prompt ≠ "") (hu : i.ollamaURL ≠ "")
    (hmar : host.marshalOk = true) :
    (buildAPIRequest i).model = i.model ∧
    (buildAPIRequest i).prompt = i.prompt ∧
    buildAPIRequest { i with ollamaURL := u2 } = buildAPIRequest i ∧
    (generate_ollama (some i) host).sent = some (buildAPIRequest i) ∧
    (generate_ollama (some i) host).requestedURL = some (requestURL i) ∧
    requestURL i = trimTrailingSlashes i.ollamaURL ++ "/api/generate" ∧
    (∃ k, i.ollamaURL.data = (trimTrailingSlashes i.ollamaURL).data ++ List.replicate k '/') ∧
    (∀ c, (trimTrailingSlashes i.ollamaURL).data.getLast? = some c → c ≠ '/') := by
  refine ⟨rfl, rfl, rfl, ?_, ?_, rfl, trim_append_slashes i.ollamaURL,
    fun c h => trim_no_trailing_slash _ _ h⟩
  · rw [generate_ollama_valid i host hm hp hu hmar]
  · rw [generate_ollama_valid i host hm hp hu hmar]

/-- Claim C3, witness: a concrete endpoint with two trailing slashes. -/
theorem c3_outbound_request_shape_witness :
    (buildAPIRequest { model := "m1", prompt := "p", ollamaURL := "http://h//" }).model =
      OllamaInput.model { model := "m1", prompt := "p", ollamaURL := "http://h//" } ∧
    (buildAPIRequest { model := "m1", prompt := "p", ollamaURL := "http://h//" }).prompt =
      OllamaInput.prompt { model := "m1", prompt := "p", ollamaURL := "http://h//" } ∧
    buildAPIRequest { { model := "m1", prompt := "p", ollamaURL := "http://h//" : OllamaInput }
        with ollamaURL := "x" } =
      buildAPIRequest { model := "m1", prompt := "p", ollamaURL := "http://h//" } ∧
    (generate_ollama (some { model := "m1", prompt := "p", ollamaURL := "http://h//" })
      { httpStatus := 0, readStatus := 0, reply := ReplyBytes.bad "", marshalOk := true,
        writeStatus := 0 }).sent =
      some (buildAPIRequest { model := "m1", prompt := "p", ollamaURL := "http://h//" }) ∧
    (generate_ollama (some { model := "m1", prompt := "p", ollamaURL := "http://h//" })
      { httpStatus := 0, readStatus := 0, reply := ReplyBytes.bad "", marshalOk := true,
        writeStatus := 0 }).requestedURL =
      some (requestURL { model := "m1", prompt := "p", ollamaURL := "http://h//" }) ∧
    requestURL { model := "m1", prompt := "p", ollamaURL := "http://h//" } =
      trimTrailingSlashes
        (OllamaInput.ollamaURL { model := "m1", prompt := "p", ollamaURL := "http://h//" })
        ++ "/api/generate" ∧
    (∃ k, (OllamaInput.ollamaURL
        { model := "m1", prompt := "p", ollamaURL := "http://h//" }).data =
      (trimTrailingSlashes (OllamaInput.ollamaURL
        { model := "m1", prompt := "p", ollamaURL := "http://h//" })).data
        ++ List.replicate k '/') ∧
    (∀ c, (trimTrailingSlashes (OllamaInput.ollamaURL
        { model := "m1", prompt := "p", ollamaURL := "http://h//" })).data.getLast? =
        some c → c ≠ '/') :=
  c3_outbound_request_shape { model := "m1", prompt := "p", ollamaURL := "http://h//" } "x"
    { httpStatus := 0, readStatus := 0, reply := ReplyBytes.bad "", marshalOk := true,
      writeStatus := 0 }
    (by decide) (by decide) (by decide) rfl

/-- Claim C8: whenever issue_request returns a nonzero status, or it succeeds
but the follow-up reply read via read_resource fails, generate_ollama emits a
single output with success false and error_type HTTP_REQUEST_ERROR whose
metadata carries the full target URL, and returns a nonzero status; the one
error type covers both the send failure and the read failure. -/
theorem c8_http_request_error (i : OllamaInput) (host : HostEnv)
    (hm : i.model ≠ "") (hp : i.prompt ≠ "") (hu : i.ollamaURL ≠ "")
    (hmar : host.marshalOk = true)
    (hfail : host.httpStatus ≠ 0 ∨ (host.httpStatus = 0 ∧ host.readStatus ≠ 0)) :
    (generate_ollama (some i) host).status = 1 ∧
    ∃ out, (generate_ollama (some i) host).writes = [out] ∧ out.success = false ∧
      out.errorType = "HTTP_REQUEST_ERROR" ∧
      metaLookup out.metadata "ollama_url" = some (MetaVal.str (requestURL i)) := by
  rw [generate_ollama_valid i host hm hp hu hmar]
  rcases hfail with h | ⟨h0, h⟩
  · have e : makeHttpRequest host =
        .error ("HTTP request failed with status code: " ++ toString host.httpStatus) := by
      unfold makeHttpRequest
      rw [if_pos h]
    rw [e]
    exact ⟨rfl, _, rfl, rfl, rfl, rfl⟩
  · have e1 : readHttpResponseFromFloat host =
        .error ("failed to read HTTP response file: error code " ++ toString host.readStatus) := by
      unfold readHttpResponseFromFloat
      rw [if_pos h]
    have e : makeHttpRequest host =
        .error ("failed to read response: "
          ++ ("failed to read HTTP response file: error code " ++ toString host.readStatus)) := by
      unfold makeHttpRequest
      rw [if_neg (show ¬(host.httpStatus ≠ 0) by simp [h0]), e1]
    rw [e]
    exact ⟨rfl, _, rfl, rfl, rfl, rfl⟩

/-- Claim C8, witness: a concrete failed issue_request. -/
theorem c8_http_request_error_witness :
    (generate_ollama (some { model := "m", prompt := "p", ollamaURL := "http://h" })
      { httpStatus := 7, readStatus := 0, reply := ReplyBytes.bad "", marshalOk := true,
        writeStatus := 0 }).status = 1 ∧
    ∃ out,
      (generate_ollama (some { model := "m", prompt := "p", ollamaURL := "http://h" })
        { httpStatus := 7, readStatus := 0, reply := ReplyBytes.bad "", marshalOk := true,
          writeStatus := 0 }).writes = [out] ∧ out.success = false ∧
        out.errorType = "HTTP_REQUEST_ERROR" ∧
        metaLookup out.metadata "ollama_url" =
          some (MetaVal.str (requestURL { model := "m", prompt := "p", ollamaURL := "http://h" })) :=
  c8_http_request_error { model := "m", prompt := "p", ollamaURL := "http://h" }
    { httpStatus := 7, readStatus := 0, reply := ReplyBytes.bad "", marshalOk := true,
      writeStatus := 0 }
    (by decide) (by decide) (by decide) rfl (Or.inl (by decide))

/-- Claim C9: if the reply bytes are retrieved but fail to decode against the
response schema, the emitted output has success false, error_type
RESPONSE_PARSE_ERROR (distinct from HTTP_REQUEST_ERROR) and metadata
raw_response holding the reply bytes verbatim, and the status is nonzero
(canonical reply retrieval; the retrieval hook in src/main.go is stubbed). -/
theorem c9_response_parse_error (i : OllamaInput) (host : HostEnv) (raw : String)
    (hm : i.model ≠ "") (hp : i.prompt ≠ "") (hu : i.ollamaURL ≠ "")
    (hmar : host.marshalOk = true) (hh : host.httpStatus = 0) (hr : host.readStatus = 0)
    (hrep : host.reply = ReplyBytes.bad raw) :
    (generate_ollama_canon (some i) host).status = 1 ∧
    ∃ out, (generate_ollama_canon (some i) host).writes = [out] ∧ out.success = false ∧
      out.errorType = "RESPONSE_PARSE_ERROR" ∧
      metaLookup out.metadata "raw_response" = some (MetaVal.str raw) := by
  rw [generate_ollama_canon_valid i host hm hp hu hmar]
  have e : makeHttpRequestCanon host = .ok (ReplyBytes.bad raw) := by
    unfold makeHttpRequestCanon
    rw [if_neg (by simp [hh]), if_neg (by simp [hr]), hrep]
  rw [e]
  exact ⟨rfl, _, rfl, rfl, rfl, rfl⟩

/-- Claim C9, witness: concrete undecodable reply bytes. -/
theorem c9_response_parse_error_witness :
    (generate_ollama_canon (some { model := "m", prompt := "p", ollamaURL := "http://h" })
      { httpStatus := 0, readStatus := 0, reply := ReplyBytes.bad "not json", marshalOk := true,
        writeStatus := 0 }).status = 1 ∧
    ∃ out,
      (generate_ollama_canon (some { model := "m", prompt := "p", ollamaURL := "http://h" })
        { httpStatus := 0, readStatus := 0, reply := ReplyBytes.bad "not json", marshalOk := true,
          writeStatus := 0 }).writes = [out] ∧ out.success = false ∧
        out.errorType = "RESPONSE_PARSE_ERROR" ∧
        metaLookup out.metadata "raw_response" = some (MetaVal.str "not json") :=
  c9_response_parse_error { model := "m", prompt := "p", ollamaURL := "http://h" }
    { httpStatus := 0, readStatus := 0, reply := ReplyBytes.bad "not json", marshalOk := true,
      writeStatus := 0 } "not json"
    (by decide) (by decide) (by decide) rfl rfl rfl rfl

/-- The input of spec scenario A. -/
def scenarioAInput : OllamaInput := { model := "m1", prompt := "hello", ollamaURL := "http://h/" }

/-- The scenario A reply: bytes that decode to response "hi" with done true. -/
def scenarioAReply : ReplyBytes :=
  ReplyBytes.ok { response := "hi", done := true } "\x7b\"response\":\"hi\",\"done\":true\x7d"

/-- A host on which all four capabilities succeed and the scenario A reply is
delivered. -/
def allOkHost : HostEnv :=
  { httpStatus := 0, readStatus := 0, reply := scenarioAReply, marshalOk := true, writeStatus := 0 }

/-- Claim C7, evaluated at the failing input: on the scenario A input with
every capability succeeding and the scenario A reply available,
generate_ollama as written in src/main.go emits HTTP_REQUEST_ERROR and
returns 1, because its reply-retrieval hook readActualOllamaResponse
unconditionally errors; the canonical pipeline, completing that hook per the
spec, produces exactly the claimed success output with status 0. -/
theorem c7_scenario_a_evaluation :
    ((generate_ollama (some scenarioAInput) allOkHost).status = 1 ∧
     ∃ out, (generate_ollama (some scenarioAInput) allOkHost).writes = [out] ∧
       out.success = false ∧ out.errorType = "HTTP_REQUEST_ERROR") ∧
    ((generate_ollama_canon (some scenarioAInput) allOkHost).status = 0 ∧
     ∃ out, (generate_ollama_canon (some scenarioAInput) allOkHost).writes = [out] ∧
       out.success = true ∧ out.response = "hi" ∧ out.done = true) :=
  ⟨⟨rfl, _, rfl, rfl, rfl⟩, ⟨rfl, _, rfl, rfl, rfl, rfl⟩⟩
